import Mathlib

/-!
Verification development for the e-commerce customer-support agent
(`first_real_agent.py`): a shallow embedding of the four customer-service
tools, the `MonitoredAgent` monitoring wrapper, and its metrics reporting,
together with theorems settling the specification claims.

Modelling conventions:
* SQLite-backed stores become lists of row structures; a parameterized
  `SELECT ... WHERE key = ?` with `fetchone` becomes `List.find?` on the
  row list (first matching row).
* Python dicts returned by the tools become inductives/structures; a dict
  that may lack a key (`response_time`, `error`) uses `Option`.
* `datetime.now().strftime(percentY...S)` (second resolution) is an input
  parameter: the formatted timestamp string, supplied by the environment.
* Latencies and monetary amounts are `ℚ` (the code uses Python floats;
  rounding to two decimals is `round2` below).
* The LLM dispatcher (`self.agent.invoke`) is an opaque external call; its
  observable outcome is a `DispatchOutcome`: either a reply text plus the
  ticket store as the dispatcher (through its tools) left it, or a raised
  fault message plus the ticket store as it stood when the fault reached
  the `except` handler in `run`.
* Stateful methods are explicit state passing: they take the state and
  return the (possibly updated) state together with the result value.
-/

/-- Occurrence test for a character list inside another: `needle` occurs as a
contiguous sublist of the second argument. -/
def containsSubList (needle : List Char) : List Char → Bool
  | [] => needle.isEmpty
  | c :: rest => needle.isPrefixOf (c :: rest) || containsSubList needle rest

/-- Generic case-sensitive substring test on strings, via character lists. -/
def containsSubstr (needle haystack : String) : Bool :=
  containsSubList needle.toList haystack.toList

/-! ## Order lookup (`check_order_status`, first_real_agent.py lines 74-91) -/

/-- Row of the `orders` table: columns `id, status, order_date, total_amount`. -/
structure OrderRow where
  id : String
  status : String
  order_date : String
  total_amount : ℚ
deriving DecidableEq, Repr

/-- Result dict of `check_order_status`: either the populated record or
`{"error": "Order not found"}`. -/
inductive OrderResult where
  | found (order_id status order_date : String) (total_amount : ℚ)
  | err (msg : String)
deriving DecidableEq, Repr

/-- Embedding of `check_order_status`: a parameterized point `SELECT` on the
orders store followed by `fetchone`; the store is returned unchanged (the
query is read-only). -/
def check_order_status (db : List OrderRow) (order_id : String) :
    List OrderRow × OrderResult :=
  match db.find? (fun r => r.id == order_id) with
  | some r => (db, OrderResult.found r.id r.status r.order_date r.total_amount)
  | none => (db, OrderResult.err "Order not found")

/-! ## Return policy lookup (`check_return_policy`, lines 118-123) -/

/-- Embedding of `check_return_policy`: exact-match lookup in the static
`policies` dict with `dict.get` default fallback. Total, purely functional. -/
def check_return_policy (product_type : String) : String :=
  if product_type == "electronics" then
    "30-day return window, must include original packaging"
  else if product_type == "clothing" then
    "60-day return window, must have tags attached"
  else if product_type == "furniture" then
    "14-day return window, assembly affects eligibility"
  else
    "Standard 30-day return policy applies"

/-! ## Ticket creation (`create_support_ticket`, lines 153-164) -/

/-- Row of the `tickets` table: columns
`ticket_id, customer_email, issue, priority, status`. -/
structure Ticket where
  ticket_id : String
  customer_email : String
  issue : String
  priority : String
  status : String
deriving DecidableEq, Repr

/-- Ticket identifier generation: the fixed prefix `TKT-` concatenated with
the current timestamp formatted at second resolution (`now` is the
already-formatted timestamp string). -/
def ticketId (now : String) : String :=
  "TKT-" ++ now

/-- Embedding of `create_support_ticket`: generates the identifier, inserts
one record with status fixed to `open`, and returns the confirmation string
embedding the identifier. `now` is the second-resolution timestamp string
from `datetime.now().strftime`. -/
def create_support_ticket (now : String) (db : List Ticket)
    (customer_email issue priority : String) : List Ticket × String :=
  let tid := ticketId now
  (db ++ [{ ticket_id := tid, customer_email := customer_email,
            issue := issue, priority := priority, status := "open" }],
   "Support ticket " ++ tid ++ " created. Team will respond within 24 hours.")

/-- Repeated ticket creation: one `create_support_ticket` call per element of
`calls` (timestamp, email, issue, priority), threading the store. -/
def createTickets (db : List Ticket) :
    List (String × String × String × String) → List Ticket
  | [] => db
  | (now, email, issue, prio) :: rest =>
      createTickets (create_support_ticket now db email issue prio).1 rest

/-! ## Inventory lookup (`check_inventory`, lines 196-213) -/

/-- Row of the `inventory` table: columns
`product_id, name, quantity, next_restock_date`. -/
structure InventoryRow where
  product_id : String
  name : String
  quantity : Int
  next_restock_date : String
deriving DecidableEq, Repr

/-- Result dict of `check_inventory`: either the populated record (with the
derived `in_stock` boolean) or `{"error": "Product not found"}`. -/
inductive InventoryResult where
  | found (product_id name : String) (in_stock : Bool) (quantity : Int)
      (next_restock : String)
  | err (msg : String)
deriving DecidableEq, Repr

/-- Embedding of `check_inventory`: parameterized point `SELECT` plus
`fetchone`; `in_stock` is computed as `quantity > 0` and never stored. -/
def check_inventory (db : List InventoryRow) (product_id : String) :
    List InventoryRow × InventoryResult :=
  match db.find? (fun r => r.product_id == product_id) with
  | some r =>
      (db, InventoryResult.found r.product_id r.name
        (decide (0 < r.quantity)) r.quantity r.next_restock_date)
  | none => (db, InventoryResult.err "Product not found")

/-! ## Monitoring wrapper (`MonitoredAgent`, lines 297-450) -/

/-- The `self.metrics` dict initialised in `MonitoredAgent.__init__`:
`average_response_time` is (despite its name) the list of observed
latencies. -/
structure Metrics where
  total_queries : Nat
  successful_resolutions : Nat
  escalations : Nat
  average_response_time : List ℚ
deriving DecidableEq, Repr

/-- Fresh metrics state, as built by `MonitoredAgent.__init__`. -/
def initMetrics : Metrics :=
  { total_queries := 0, successful_resolutions := 0, escalations := 0,
    average_response_time := [] }

/-- Process state visible to the monitored runner: its metrics plus the
tickets store (mutated only through the dispatcher running the
`create_support_ticket` tool). -/
structure AgentState where
  metrics : Metrics
  tickets : List Ticket
deriving DecidableEq, Repr

/-- Fresh runner state: zero counters, empty latency list, empty ticket
store. -/
def freshState : AgentState :=
  { metrics := initMetrics, tickets := [] }

/-- Observable outcome of the opaque dispatcher call `self.agent.invoke`:
either it returns a reply text (with the ticket store as its tool calls
left it), or it raises a fault with message `msg` (with the ticket store
as it stood when the exception reached the handler). -/
inductive DispatchOutcome where
  | success (output : String) (tickets : List Ticket)
  | fault (msg : String) (tickets : List Ticket)
deriving DecidableEq, Repr

/-- Whether the dispatcher call returned without raising. -/
def DispatchOutcome.isSuccess : DispatchOutcome → Bool
  | .success _ _ => true
  | .fault _ _ => false

/-- Character-wise lowercasing of a string, the embedding of `.lower()`
(ASCII case folding, which is all the `"ticket"` test exercises). -/
def lowercase (s : String) : String :=
  String.mk (s.toList.map Char.toLower)

/-- The escalation heuristic of `MonitoredAgent.run`:
`"ticket" in result["output"].lower()`. -/
def containsTicketKeyword (output : String) : Bool :=
  containsSubstr "ticket" (lowercase output)

/-- Result dict of `MonitoredAgent.run`. The success dict has keys
`status, response, response_time`; the error dict has keys
`status, response, error`. Keys absent on one path are `Option.none`. -/
structure RunResult where
  status : String
  response : String
  response_time : Option ℚ
  error : Option String
deriving DecidableEq, Repr

/-- The fixed user-facing apology text of the `except` branch of
`MonitoredAgent.run`. -/
def apologyText : String :=
  "I apologize, but I encountered an error. A support ticket has been created."

namespace MonitoredAgent

/-- Embedding of `MonitoredAgent.run` (lines 382-418). `elapsed` is the
measured wall-clock latency of the dispatcher call. The counter
`total_queries` is incremented before the `try` block; on success the
latency is appended and the reply is classified by the `"ticket"` substring
test; on a raised fault the handler only builds the error dict (it creates
no ticket and records no latency). The function is total: no exception
propagates out of `run`. -/
def run (s : AgentState) (outcome : DispatchOutcome) (elapsed : ℚ) :
    AgentState × RunResult :=
  let m := { s.metrics with total_queries := s.metrics.total_queries + 1 }
  match outcome with
  | .success output tickets =>
      let m := { m with
        average_response_time := m.average_response_time ++ [elapsed] }
      let m :=
        if containsTicketKeyword output then
          { m with escalations := m.escalations + 1 }
        else
          { m with successful_resolutions := m.successful_resolutions + 1 }
      ({ metrics := m, tickets := tickets },
       { status := "success", response := output,
         response_time := some elapsed, error := none })
  | .fault msg tickets =>
      ({ metrics := m, tickets := tickets },
       { status := "error", response := apologyText,
         response_time := none, error := some msg })

/-- Fold of `run` over a sequence of invocations (each given by its
dispatcher outcome and measured latency). -/
def runAll (s : AgentState) : List (DispatchOutcome × ℚ) → AgentState
  | [] => s
  | (o, t) :: rest => runAll (run s o t).1 rest

/-- Rounding to two decimal places, the embedding of `round(x, 2)`:
round-half-up at the second decimal. -/
def round2 (x : ℚ) : ℚ :=
  (⌊x * 100 + 1/2⌋ : ℚ) / 100

/-- Report dict returned by `MonitoredAgent.get_metrics`. -/
structure MetricsReport where
  total_queries : Nat
  resolution_rate : ℚ
  escalation_rate : ℚ
  average_response_time : ℚ
deriving DecidableEq, Repr

/-- Embedding of `MonitoredAgent.get_metrics` (lines 443-450): rates are
percentages of `total_queries` (0 when the total is 0); the average latency
is the arithmetic mean of the recorded latencies (0 when none), rounded to
two decimals. The method only reads the metrics state, returned unchanged. -/
def get_metrics (m : Metrics) : Metrics × MetricsReport :=
  let avg_time : ℚ :=
    if m.average_response_time ≠ [] then
      m.average_response_time.sum / (m.average_response_time.length : ℚ)
    else 0
  (m,
   { total_queries := m.total_queries,
     resolution_rate :=
       if m.total_queries > 0 then
         (m.successful_resolutions : ℚ) / (m.total_queries : ℚ) * 100
       else 0,
     escalation_rate :=
       if m.total_queries > 0 then
         (m.escalations : ℚ) / (m.total_queries : ℚ) * 100
       else 0,
     average_response_time := round2 avg_time })

end MonitoredAgent

/-! ## Helper lemmas -/

theorem find_orderRow_id {db : List OrderRow} {oid : String} {r : OrderRow}
    (h : db.find? (fun x => x.id == oid) = some r) : r.id = oid := by
  simpa using List.find?_some h

theorem find_inventoryRow_id {db : List InventoryRow} {pid : String}
    {r : InventoryRow}
    (h : db.find? (fun x => x.product_id == pid) = some r) : r.product_id = pid := by
  simpa using List.find?_some h

/-! ## Claim theorems -/

/-- C4: for every order identifier present in the orders store,
`check_order_status` returns a fully populated record whose `order_id`
equals the queried identifier; for every absent identifier it returns
exactly the `Order not found` error; in both cases the store is
unchanged. -/
theorem check_order_status_spec (db : List OrderRow) (oid : String) :
    ((∃ r ∈ db, r.id = oid) →
      ∃ st d amt, (check_order_status db oid).2 = OrderResult.found oid st d amt) ∧
    ((∀ r ∈ db, r.id ≠ oid) →
      (check_order_status db oid).2 = OrderResult.err "Order not found") ∧
    (check_order_status db oid).1 = db := by
  refine ⟨?_, ?_, ?_⟩
  · rintro ⟨r, hr, hid⟩
    have hs : (db.find? (fun x => x.id == oid)).isSome := by
      rw [List.find?_isSome]
      exact ⟨r, hr, by simp [hid]⟩
    obtain ⟨r', hr'⟩ := Option.isSome_iff_exists.mp hs
    have hid' : r'.id = oid := find_orderRow_id hr'
    exact ⟨r'.status, r'.order_date, r'.total_amount, by
      simp [check_order_status, hr', hid']⟩
  · intro h
    have hn : db.find? (fun x => x.id == oid) = none := by
      rw [List.find?_eq_none]
      intro x hx
      simpa using h x hx
    simp [check_order_status, hn]
  · unfold check_order_status
    cases db.find? (fun x => x.id == oid) <;> rfl

/-- C4 witness: on a concrete two-row store, a present identifier yields a
populated record with the queried id, and an absent one the exact error. -/
theorem check_order_status_spec_witness :
    (∃ st d amt,
      (check_order_status
        [{ id := "12345", status := "shipped", order_date := "2024-01-15",
           total_amount := 100 },
         { id := "67890", status := "pending", order_date := "2024-02-01",
           total_amount := 250 }] "12345").2 = OrderResult.found "12345" st d amt) ∧
    (check_order_status
        [{ id := "12345", status := "shipped", order_date := "2024-01-15",
           total_amount := 100 },
         { id := "67890", status := "pending", order_date := "2024-02-01",
           total_amount := 250 }] "99999").2 = OrderResult.err "Order not found" :=
  ⟨(check_order_status_spec _ "12345").1
      ⟨{ id := "12345", status := "shipped", order_date := "2024-01-15",
         total_amount := 100 }, by simp, rfl⟩,
   (check_order_status_spec _ "99999").2.1 (by
      intro r hr
      simp only [List.mem_cons, List.not_mem_nil, or_false] at hr
      rcases hr with h | h <;> simp [h])⟩

/-- C5: for every product identifier present in the inventory store,
`check_inventory` returns a record whose `product_id` equals the queried
identifier and whose `in_stock` flag equals `quantity > 0` for the returned
quantity; for every absent identifier it returns exactly the
`Product not found` error. The store is returned unchanged. -/
theorem check_inventory_spec (db : List InventoryRow) (pid : String) :
    ((∃ r ∈ db, r.product_id = pid) →
      ∃ name q rd, (check_inventory db pid).2 =
        InventoryResult.found pid name (decide (0 < q)) q rd) ∧
    ((∀ r ∈ db, r.product_id ≠ pid) →
      (check_inventory db pid).2 = InventoryResult.err "Product not found") ∧
    (check_inventory db pid).1 = db := by
  refine ⟨?_, ?_, ?_⟩
  · rintro ⟨r, hr, hid⟩
    have hs : (db.find? (fun x => x.product_id == pid)).isSome := by
      rw [List.find?_isSome]
      exact ⟨r, hr, by simp [hid]⟩
    obtain ⟨r', hr'⟩ := Option.isSome_iff_exists.mp hs
    have hid' : r'.product_id = pid := find_inventoryRow_id hr'
    exact ⟨r'.name, r'.quantity, r'.next_restock_date, by
      simp [check_inventory, hr', hid']⟩
  · intro h
    have hn : db.find? (fun x => x.product_id == pid) = none := by
      rw [List.find?_eq_none]
      intro x hx
      simpa using h x hx
    simp [check_inventory, hn]
  · unfold check_inventory
    cases db.find? (fun x => x.product_id == pid) <;> rfl

/-- C5 witness: on a concrete store with an out-of-stock item, a present
identifier yields a record with `in_stock = (quantity > 0)`, and an absent
one the exact error. -/
theorem check_inventory_spec_witness :
    (∃ name q rd,
      (check_inventory
        [{ product_id := "XYZ", name := "Lamp", quantity := 0,
           next_restock_date := "2024-03-01" }] "XYZ").2 =
        InventoryResult.found "XYZ" name (decide (0 < q)) q rd) ∧
    (check_inventory
        [{ product_id := "XYZ", name := "Lamp", quantity := 0,
           next_restock_date := "2024-03-01" }] "ABC").2 =
      InventoryResult.err "Product not found" :=
  ⟨(check_inventory_spec _ "XYZ").1
      ⟨{ product_id := "XYZ", name := "Lamp", quantity := 0,
         next_restock_date := "2024-03-01" }, by simp, rfl⟩,
   (check_inventory_spec _ "ABC").2.1 (by
      intro r hr
      simp only [List.mem_cons, List.not_mem_nil, or_false] at hr
      simp [hr])⟩

/-- C6: `check_return_policy` is a total function from strings to strings
(so it never returns an error value): the three known categories produce
policies containing their return windows, and every other input yields the
fixed fallback policy string. -/
theorem check_return_policy_spec :
    containsSubstr "30-day" (check_return_policy "electronics") = true ∧
    containsSubstr "60-day" (check_return_policy "clothing") = true ∧
    containsSubstr "14-day" (check_return_policy "furniture") = true ∧
    ∀ s : String, s ≠ "electronics" → s ≠ "clothing" → s ≠ "furniture" →
      check_return_policy s = "Standard 30-day return policy applies" := by
  refine ⟨by decide, by decide, by decide, ?_⟩
  intro s h1 h2 h3
  simp [check_return_policy, h1, h2, h3]

/-- C6 witness: the fallback branch at the concrete unrecognized key
`toys`, via the main theorem. -/
theorem check_return_policy_spec_witness :
    check_return_policy "toys" = "Standard 30-day return policy applies" :=
  check_return_policy_spec.2.2.2 "toys" (by decide) (by decide) (by decide)

/-- C10: `get_metrics` is read-only — it returns the metrics state
unchanged (all counters and the latency sequence are untouched), and two
consecutive calls with no intervening `run` return equal reports. -/
theorem get_metrics_readonly (m : Metrics) :
    (MonitoredAgent.get_metrics m).1 = m ∧
    (MonitoredAgent.get_metrics m).1.total_queries = m.total_queries ∧
    (MonitoredAgent.get_metrics m).1.successful_resolutions =
      m.successful_resolutions ∧
    (MonitoredAgent.get_metrics m).1.escalations = m.escalations ∧
    (MonitoredAgent.get_metrics m).1.average_response_time =
      m.average_response_time ∧
    (MonitoredAgent.get_metrics (MonitoredAgent.get_metrics m).1).2 =
      (MonitoredAgent.get_metrics m).2 :=
  ⟨rfl, rfl, rfl, rfl, rfl, rfl⟩

/-- C2: whenever the dispatcher call raises a fault, `run` returns the
error dict — status `error`, the fixed apology text, and a populated
`error` field carrying the fault detail — increments neither the
`successful_resolutions` nor the `escalations` counter, and creates no
support ticket on this path (the ticket store is exactly as the dispatcher
left it). -/
theorem run_fault_spec (s : AgentState) (msg : String) (tk : List Ticket)
    (t : ℚ) :
    (MonitoredAgent.run s (DispatchOutcome.fault msg tk) t).2.status =
      "error" ∧
    (MonitoredAgent.run s (DispatchOutcome.fault msg tk) t).2.response =
      apologyText ∧
    (MonitoredAgent.run s (DispatchOutcome.fault msg tk) t).2.error =
      some msg ∧
    ((MonitoredAgent.run s (DispatchOutcome.fault msg tk) t).2.error).isSome =
      true ∧
    (MonitoredAgent.run s (DispatchOutcome.fault msg tk)
        t).1.metrics.successful_resolutions =
      s.metrics.successful_resolutions ∧
    (MonitoredAgent.run s (DispatchOutcome.fault msg tk)
        t).1.metrics.escalations = s.metrics.escalations ∧
    (MonitoredAgent.run s (DispatchOutcome.fault msg tk) t).1.tickets = tk :=
  ⟨rfl, rfl, rfl, rfl, rfl, rfl, rfl⟩

/-- C9: on the fault path `run` still returns normally (it is a total
function, so the exception never propagates), `total_queries` is
incremented by one, nothing is appended to the latency sequence, and the
result carries no `response_time`; on the success path the result does
carry `some` measured latency, so `response_time` is present exactly on
success. -/
theorem run_fault_frame (s : AgentState) (msg : String) (tk : List Ticket)
    (t : ℚ) :
    (MonitoredAgent.run s (DispatchOutcome.fault msg tk)
        t).1.metrics.total_queries = s.metrics.total_queries + 1 ∧
    (MonitoredAgent.run s (DispatchOutcome.fault msg tk)
        t).1.metrics.average_response_time =
      s.metrics.average_response_time ∧
    (MonitoredAgent.run s (DispatchOutcome.fault msg tk)
        t).2.response_time = none ∧
    ∀ (out : String) (tk2 : List Ticket),
      (MonitoredAgent.run s (DispatchOutcome.success out tk2)
          t).2.response_time = some t :=
  ⟨rfl, rfl, rfl, fun _ _ => rfl⟩

theorem run_counts_step (s : AgentState) (o : DispatchOutcome) (t : ℚ) :
    ((MonitoredAgent.run s o t).1.metrics.successful_resolutions +
        (MonitoredAgent.run s o t).1.metrics.escalations =
      s.metrics.successful_resolutions + s.metrics.escalations +
        (if o.isSuccess then 1 else 0)) ∧
    (MonitoredAgent.run s o t).1.metrics.total_queries =
      s.metrics.total_queries + 1 := by
  cases o with
  | success out tk =>
      cases h : containsTicketKeyword out <;>
        simp [MonitoredAgent.run, DispatchOutcome.isSuccess, h] <;> omega
  | fault msg tk =>
      simp [MonitoredAgent.run, DispatchOutcome.isSuccess]

theorem runAll_counts (events : List (DispatchOutcome × ℚ)) :
    ∀ s : AgentState,
      ((MonitoredAgent.runAll s events).metrics.successful_resolutions +
          (MonitoredAgent.runAll s events).metrics.escalations =
        s.metrics.successful_resolutions + s.metrics.escalations +
          (events.filter (fun e => e.1.isSuccess)).length) ∧
      (MonitoredAgent.runAll s events).metrics.total_queries =
        s.metrics.total_queries + events.length := by
  induction events with
  | nil => intro s; simp [MonitoredAgent.runAll]
  | cons e rest ih =>
      intro s
      obtain ⟨o, t⟩ := e
      obtain ⟨hs1, hs2⟩ := run_counts_step s o t
      obtain ⟨hr1, hr2⟩ := ih (MonitoredAgent.run s o t).1
      have hf : (List.filter (fun e => e.1.isSuccess) ((o, t) :: rest)).length
          = (List.filter (fun e => e.1.isSuccess) rest).length +
            (if o.isSuccess then 1 else 0) := by
        rw [List.filter_cons]
        cases h : o.isSuccess <;> simp [h]
      simp only [MonitoredAgent.runAll, List.length_cons]
      rw [hf]
      omega

/-- C1 counterexample: a single invocation whose dispatcher call raises a
fault is a completed invocation of `run` after which
`successful_resolutions + escalations` (still 0) differs from
`total_queries` (now 1), refuting the claimed invariant for arbitrary
outcome sequences. -/
theorem metrics_sum_invariant_cex :
    (MonitoredAgent.run freshState
        (DispatchOutcome.fault "database is locked" [])
        0).1.metrics.successful_resolutions +
      (MonitoredAgent.run freshState
        (DispatchOutcome.fault "database is locked" [])
        0).1.metrics.escalations ≠
    (MonitoredAgent.run freshState
        (DispatchOutcome.fault "database is locked" [])
        0).1.metrics.total_queries := by
  simp [MonitoredAgent.run, freshState, initMetrics]

/-- C1 amended: after every sequence of invocations from a fresh runner,
`successful_resolutions + escalations` equals the number of invocations
whose dispatcher call returned successfully, and `total_queries` counts all
invocations; hence the claimed equality
`successful_resolutions + escalations = total_queries` holds whenever no
invocation in the sequence raised a fault (faulting invocations increment
only `total_queries`). -/
theorem metrics_sum_invariant (events : List (DispatchOutcome × ℚ))
    (tk : List Ticket) :
    ((MonitoredAgent.runAll { metrics := initMetrics, tickets := tk }
          events).metrics.successful_resolutions +
        (MonitoredAgent.runAll { metrics := initMetrics, tickets := tk }
          events).metrics.escalations =
      (events.filter (fun e => e.1.isSuccess)).length) ∧
    (MonitoredAgent.runAll { metrics := initMetrics, tickets := tk }
        events).metrics.total_queries = events.length ∧
    ((∀ e ∈ events, e.1.isSuccess = true) →
      (MonitoredAgent.runAll { metrics := initMetrics, tickets := tk }
          events).metrics.successful_resolutions +
        (MonitoredAgent.runAll { metrics := initMetrics, tickets := tk }
          events).metrics.escalations =
      (MonitoredAgent.runAll { metrics := initMetrics, tickets := tk }
          events).metrics.total_queries) := by
  obtain ⟨h1, h2⟩ :=
    runAll_counts events { metrics := initMetrics, tickets := tk }
  refine ⟨by simpa [initMetrics] using h1, by simpa [initMetrics] using h2, ?_⟩
  intro hall
  have hfil : events.filter (fun e => e.1.isSuccess) = events :=
    List.filter_eq_self.mpr hall
  rw [hfil] at h1
  rw [h1, h2]
  simp [initMetrics]

/-- C1 amended witness: a concrete all-successful two-invocation sequence,
via the amended theorem. -/
theorem metrics_sum_invariant_witness :
    (MonitoredAgent.runAll { metrics := initMetrics, tickets := [] }
        [(DispatchOutcome.success "done" [], 1),
         (DispatchOutcome.success "a ticket was made" [], 2)]
        ).metrics.successful_resolutions +
      (MonitoredAgent.runAll { metrics := initMetrics, tickets := [] }
        [(DispatchOutcome.success "done" [], 1),
         (DispatchOutcome.success "a ticket was made" [], 2)]
        ).metrics.escalations =
    (MonitoredAgent.runAll { metrics := initMetrics, tickets := [] }
        [(DispatchOutcome.success "done" [], 1),
         (DispatchOutcome.success "a ticket was made" [], 2)]
        ).metrics.total_queries :=
  (metrics_sum_invariant
      [(DispatchOutcome.success "done" [], 1),
       (DispatchOutcome.success "a ticket was made" [], 2)] []).2.2
    (by intro e he; fin_cases he <;> rfl)

theorem round2_zero : MonitoredAgent.round2 0 = 0 := by
  unfold MonitoredAgent.round2
  rw [show ((0 : ℚ) * 100 + 1 / 2) = 1 / 2 by norm_num]
  rw [show ⌊(1 / 2 : ℚ)⌋ = 0 from
    Int.floor_eq_zero_iff.mpr (by norm_num [Set.mem_Ico])]
  norm_num

theorem createTickets_length
    (calls : List (String × String × String × String)) :
    ∀ db : List Ticket,
      (createTickets db calls).length = db.length + calls.length := by
  induction calls with
  | nil => intro db; simp [createTickets]
  | cons c rest ih =>
      intro db
      obtain ⟨now, email, issue, prio⟩ := c
      simp only [createTickets]
      rw [ih]
      simp [create_support_ticket]
      omega

/-- C3: on every successful dispatcher return, the reply is classified by
the case-insensitive `ticket` substring test — escalations are incremented
when it occurs, successful resolutions otherwise; from a fresh runner, one
non-escalating invocation yields a 100 percent resolution rate and 0
percent escalation rate, and one invocation whose reply mentions `ticket`
yields the inverse. -/
theorem run_success_classification :
    (∀ (s : AgentState) (out : String) (tk : List Ticket) (t : ℚ),
      containsTicketKeyword out = true →
        (MonitoredAgent.run s (DispatchOutcome.success out tk)
            t).1.metrics.escalations = s.metrics.escalations + 1 ∧
        (MonitoredAgent.run s (DispatchOutcome.success out tk)
            t).1.metrics.successful_resolutions =
          s.metrics.successful_resolutions) ∧
    (∀ (s : AgentState) (out : String) (tk : List Ticket) (t : ℚ),
      containsTicketKeyword out = false →
        (MonitoredAgent.run s (DispatchOutcome.success out tk)
            t).1.metrics.successful_resolutions =
          s.metrics.successful_resolutions + 1 ∧
        (MonitoredAgent.run s (DispatchOutcome.success out tk)
            t).1.metrics.escalations = s.metrics.escalations) ∧
    ((MonitoredAgent.get_metrics (MonitoredAgent.run freshState
        (DispatchOutcome.success "Your order 12345 has shipped" [])
        1).1.metrics).2.resolution_rate = 100 ∧
      (MonitoredAgent.get_metrics (MonitoredAgent.run freshState
        (DispatchOutcome.success "Your order 12345 has shipped" [])
        1).1.metrics).2.escalation_rate = 0) ∧
    ((MonitoredAgent.get_metrics (MonitoredAgent.run freshState
        (DispatchOutcome.success "A support ticket has been created" [])
        1).1.metrics).2.resolution_rate = 0 ∧
      (MonitoredAgent.get_metrics (MonitoredAgent.run freshState
        (DispatchOutcome.success "A support ticket has been created" [])
        1).1.metrics).2.escalation_rate = 100) := by
  refine ⟨?_, ?_, ?_, ?_⟩
  · intro s out tk t h
    constructor <;> simp [MonitoredAgent.run, h]
  · intro s out tk t h
    constructor <;> simp [MonitoredAgent.run, h]
  · have h : containsTicketKeyword "Your order 12345 has shipped" = false := by
      decide
    constructor <;>
      norm_num [MonitoredAgent.run, MonitoredAgent.get_metrics, freshState,
        initMetrics, h]
  · have h : containsTicketKeyword "A support ticket has been created" =
        true := by decide
    constructor <;>
      norm_num [MonitoredAgent.run, MonitoredAgent.get_metrics, freshState,
        initMetrics, h]

/-- C3 witness: the classification conjuncts applied at concrete reply
texts, with the substring test evaluated there. -/
theorem run_success_classification_witness :
    ((MonitoredAgent.run freshState
        (DispatchOutcome.success "A support ticket has been created" [])
        1).1.metrics.escalations = freshState.metrics.escalations + 1 ∧
      (MonitoredAgent.run freshState
        (DispatchOutcome.success "A support ticket has been created" [])
        1).1.metrics.successful_resolutions =
        freshState.metrics.successful_resolutions) ∧
    ((MonitoredAgent.run freshState
        (DispatchOutcome.success "Your order 12345 has shipped" [])
        1).1.metrics.successful_resolutions =
        freshState.metrics.successful_resolutions + 1 ∧
      (MonitoredAgent.run freshState
        (DispatchOutcome.success "Your order 12345 has shipped" [])
        1).1.metrics.escalations = freshState.metrics.escalations) :=
  ⟨run_success_classification.1 freshState
      "A support ticket has been created" [] 1 (by decide),
   run_success_classification.2.1 freshState
      "Your order 12345 has shipped" [] 1 (by decide)⟩

/-- C7: `get_metrics` raises no division-by-zero fault — on a fresh runner
it reports zero rates and zero average; in general both rates are 0
whenever `total_queries` is 0, and the average is 0 whenever the latency
sequence is empty, else the arithmetic mean of the latencies rounded to two
decimal places. -/
theorem get_metrics_safe :
    (MonitoredAgent.get_metrics initMetrics).2 =
      { total_queries := 0, resolution_rate := 0, escalation_rate := 0,
        average_response_time := 0 } ∧
    (∀ m : Metrics, m.total_queries = 0 →
      (MonitoredAgent.get_metrics m).2.resolution_rate = 0 ∧
      (MonitoredAgent.get_metrics m).2.escalation_rate = 0) ∧
    (∀ m : Metrics, m.average_response_time = [] →
      (MonitoredAgent.get_metrics m).2.average_response_time = 0) ∧
    (∀ m : Metrics, m.average_response_time ≠ [] →
      (MonitoredAgent.get_metrics m).2.average_response_time =
        MonitoredAgent.round2 (m.average_response_time.sum /
          (m.average_response_time.length : ℚ))) := by
  refine ⟨?_, ?_, ?_, ?_⟩
  · simp [MonitoredAgent.get_metrics, initMetrics, round2_zero]
  · intro m h
    constructor <;> simp [MonitoredAgent.get_metrics, h]
  · intro m h
    simp [MonitoredAgent.get_metrics, h, round2_zero]
  · intro m h
    simp [MonitoredAgent.get_metrics, h]

/-- C7 witness: the zero-total, empty-latency and nonempty-latency cases of
the theorem at concrete metrics states. -/
theorem get_metrics_safe_witness :
    ((MonitoredAgent.get_metrics initMetrics).2.resolution_rate = 0 ∧
      (MonitoredAgent.get_metrics initMetrics).2.escalation_rate = 0) ∧
    (MonitoredAgent.get_metrics initMetrics).2.average_response_time = 0 ∧
    (MonitoredAgent.get_metrics
        { total_queries := 2, successful_resolutions := 1, escalations := 1,
          average_response_time :=
            [1, 2] }).2.average_response_time =
      MonitoredAgent.round2
        ((Metrics.average_response_time
            { total_queries := 2, successful_resolutions := 1,
              escalations := 1, average_response_time := [1, 2] }).sum /
          ((Metrics.average_response_time
            { total_queries := 2, successful_resolutions := 1,
              escalations := 1,
              average_response_time := [1, 2] }).length : ℚ)) :=
  ⟨get_metrics_safe.2.1 initMetrics rfl,
   get_metrics_safe.2.2.1 initMetrics rfl,
   get_metrics_safe.2.2.2
     { total_queries := 2, successful_resolutions := 1, escalations := 1,
       average_response_time := [1, 2] } (by decide)⟩

/-- C8: `create_support_ticket` generates the identifier by prefixing
`TKT-` to the second-resolution timestamp, appends exactly one record with
status `open`, and returns a confirmation embedding the identifier; a
sequence of N calls appends N records; calls at distinct second-resolution
timestamps get distinct identifiers, and calls within the same second
collide. -/
theorem create_support_ticket_spec (now : String) (db : List Ticket)
    (email issue prio : String) :
    ticketId now = "TKT-" ++ now ∧
    (create_support_ticket now db email issue prio).1 =
      db ++ [{ ticket_id := ticketId now, customer_email := email,
               issue := issue, priority := prio, status := "open" }] ∧
    (create_support_ticket now db email issue prio).1.length =
      db.length + 1 ∧
    (∃ pre post, (create_support_ticket now db email issue prio).2 =
      pre ++ ticketId now ++ post) ∧
    (∀ calls : List (String × String × String × String),
      (createTickets db calls).length = db.length + calls.length) ∧
    (∀ t1 t2 : String, t1 ≠ t2 → ticketId t1 ≠ ticketId t2) ∧
    (∀ t1 t2 : String, t1 = t2 → ticketId t1 = ticketId t2) := by
  refine ⟨rfl, rfl, by simp [create_support_ticket], ?_, ?_, ?_, ?_⟩
  · exact ⟨"Support ticket ",
      " created. Team will respond within 24 hours.", rfl⟩
  · intro calls
    exact createTickets_length calls db
  · intro t1 t2 hne heq
    apply hne
    have hdata := congrArg String.data heq
    simp only [ticketId, String.data_append] at hdata
    exact String.ext (List.append_cancel_left hdata)
  · intro t1 t2 heq
    rw [heq]

/-- C8 witness: distinct-timestamp identifier distinctness discharged at
two concrete timestamps one second apart, via the main theorem. -/
theorem create_support_ticket_spec_witness :
    ticketId "20240101120000" ≠ ticketId "20240101120001" :=
  (create_support_ticket_spec "20240101120000" [] "a@b.c" "broken" "high"
    ).2.2.2.2.2.1 "20240101120000" "20240101120001" (by decide)
